import Mathlib

/-!
Verification of the in-memory key extraction core of aspnmy/AAlog.

Memory chunks are modelled as a length together with a byte function
(`Mem`); Go byte slices are byte-addressed arrays, and all scanning code
accesses them only through constant-time indexing, `bytes.Index`,
`bytes.LastIndex` and subslicing, all of which are reproduced here on
this representation.  Machine integers are modelled as `Nat` with
explicit reduction modulo 2^64 where Go uses `uint64` arithmetic, and as
`Int` in two's complement range where Go uses `int`.  The cancellation
context is modelled as never cancelled (`ctx.Done()` never fires), which
is the hypothesis of every claim treated here.  Loops of the source that
provably terminate are translated by well-founded recursion; the
marker-scan loops of the V4 strategies, whose termination is exactly
what is at issue, are translated with an explicit fuel parameter, with
`none` meaning that the loop is still running after `fuel` iterations.
-/

/-- A memory chunk: a byte buffer of length `size`.  `byte` is the raw
backing function; all reads go through `Mem.get`, which truncates to a
byte exactly as a Go `[]byte` element is a `uint8`. -/
structure Mem where
  size : Nat
  byte : Nat → Nat

/-- Read one byte of a chunk (Go `memory[i]`). -/
def Mem.get (m : Mem) (i : Nat) : Nat := m.byte i % 256

/-- Go subslice `memory[a:b]` (callers below only form in-bounds slices;
out-of-bounds dereferences of the *target* pointer are modelled
explicitly at their call sites, where Go panics). -/
def Mem.slice (m : Mem) (a b : Nat) : Mem :=
  Mem.mk (b - a) (fun j => m.byte (a + j))

/-- The list of `n` bytes starting at offset `a` (Go `memory[a : a+n]`
materialised as a byte list, e.g. for a key candidate). -/
def Mem.bytesList (m : Mem) (a n : Nat) : List Nat :=
  (List.range n).map (fun j => m.get (a + j))

/-- Does the byte pattern `pat` occur at offset `i` of `m`?  This is the
comparison underlying Go `bytes.Index` / `bytes.LastIndex`. -/
def matchPatAt (m : Mem) (i : Nat) : List Nat → Bool
  | [] => true
  | b :: bs => (m.get i == b) && matchPatAt m (i + 1) bs

/-- Largest offset `≤ start` at which `pat` matches (downward scan). -/
def lastIndexFrom (m : Mem) (pat : List Nat) : Nat → Option Nat
  | 0 => if matchPatAt m 0 pat then some 0 else none
  | i + 1 => if matchPatAt m (i + 1) pat then some (i + 1) else lastIndexFrom m pat i

/-- Go `bytes.LastIndex(memory[:hi], pat)` for a non-empty `pat`: the
last offset `j` with `j + pat.length ≤ hi` at which `pat` occurs. -/
def bytesLastIndex (m : Mem) (hi : Nat) (pat : List Nat) : Option Nat :=
  if pat.length ≤ hi then lastIndexFrom m pat (hi - pat.length) else none

/-- Upward scan: try `count` successive offsets `base + r`, `base + r + 1`, …
and return the first relative offset (counted from `base`) that matches. -/
def indexSearchAux (m : Mem) (pat : List Nat) (base : Nat) : Nat → Nat → Option Nat
  | 0, _ => none
  | count + 1, r =>
    if matchPatAt m (base + r) pat then some r else indexSearchAux m pat base count (r + 1)

/-- Go `bytes.Index(memory[lo:], pat)` for non-empty `pat`: the first
occurrence of `pat` in the subslice starting at `lo`, as an offset
RELATIVE to `lo` (`none` for Go's `-1`). -/
def bytesIndex (m : Mem) (lo : Nat) (pat : List Nat) : Option Nat :=
  if lo + pat.length ≤ m.size then
    indexSearchAux m pat lo (m.size - lo - pat.length + 1) 0
  else none

/-- Go `binary.LittleEndian.Uint32`. -/
def le32 (m : Mem) (i : Nat) : Nat :=
  m.get i + m.get (i + 1) * 256 + m.get (i + 2) * 65536 + m.get (i + 3) * 16777216

/-- Go `binary.LittleEndian.Uint64`. -/
def le64 (m : Mem) (i : Nat) : Nat :=
  m.get i + m.get (i + 1) * 256 + m.get (i + 2) * 65536 + m.get (i + 3) * 16777216 +
    m.get (i + 4) * 4294967296 + m.get (i + 5) * 1099511627776 +
    m.get (i + 6) * 281474976710656 + m.get (i + 7) * 72057594037927936

/-- Go conversion `int(u)` of a `uint64` to a (64-bit) `int`:
two's-complement reinterpretation. -/
def toInt64 (u : Nat) : Int :=
  if u % 18446744073709551616 < 9223372036854775808 then
    ((u % 18446744073709551616 : Nat) : Int)
  else
    ((u % 18446744073709551616 : Nat) : Int) - 18446744073709551616

/-- Go `uint64` subtraction `a - b` (wraps on underflow). -/
def u64sub (a b : Nat) : Nat :=
  (a + 18446744073709551616 - b) % 18446744073709551616

/-- Lower-case hex digit of a value `< 16` (as used by `hex.EncodeToString`). -/
def hexDigitChar (n : Nat) : Char :=
  Char.ofNat (if n < 10 then 48 + n else 87 + n)

/-- Go `hex.EncodeToString` over a byte list. -/
def hexEncode (bs : List Nat) : String :=
  String.mk (List.flatten (bs.map (fun b => [hexDigitChar (b / 16), hexDigitChar (b % 16)])))

/-- The validation oracle (`decrypt.Validator`): `validate` is
`Validator.Validate` (DB key check) and `validateImgKey` is
`Validator.ValidateImgKey`.  Both are opaque pure predicates here. -/
structure Validator where
  validate : List Nat → Bool
  validateImgKey : List Nat → Bool

/- ### Two facts needed as termination measures of the scan loops -/

theorem lastIndexFrom_le (m : Mem) (pat : List Nat) :
    ∀ s i, lastIndexFrom m pat s = some i → i ≤ s := by
  intro s
  induction s with
  | zero =>
    intro i h
    simp only [lastIndexFrom] at h
    split at h
    · simp_all
    · simp_all
  | succ n ih =>
    intro i h
    simp only [lastIndexFrom] at h
    split at h
    · simp_all
    · exact Nat.le_trans (ih i h) (Nat.le_succ n)

theorem bytesLastIndex_bound (m : Mem) (hi : Nat) (pat : List Nat) (i : Nat)
    (h : bytesLastIndex m hi pat = some i) : i + pat.length ≤ hi := by
  unfold bytesLastIndex at h
  split at h
  · next hle =>
    have := lastIndexFrom_le m pat (hi - pat.length) i h
    omega
  · simp_all

/- ### V4 search strategies (file of `BasePatternSearch`, `SetDBKeyLogSearch`,
`SQLiteSafetySearch`, `WeixinDLLSearch`, `V4Extractor.SearchKey`) -/

/-- Outcome of one strategy's `Search`: `key s` is a return of `(s, true)`,
`miss` a return of `("", false)`, `panicked` a Go runtime panic. -/
inductive SRes where
  | key (s : String)
  | miss
  | panicked
deriving DecidableEq

/-- `isValidKeyPattern` (identical in its three Go copies): data is
plausible key material iff it is neither all zero nor all one repeated
byte value.  Always called on non-empty (32-byte) windows. -/
def isValidKeyPattern (data : List Nat) : Bool :=
  !(data.all (fun b => b == 0)) && !(data.all (fun b => b == data.headD 0))

/-- The 32-byte-window loop `for i := 0; i < len(w)-32; i++` shared by
`findSetDBKeyCall` (method 1), `findKeyInRange` (both copies) and
`searchForKeyAroundSQLiteFunction` (method 1): test every 32-byte window
against the validator, falling back to `isValidKeyPattern` when the
validator is nil.  `count` is fuel; callers pass `w.size`, which always
exceeds the iteration count, so the fuel never runs out. -/
def scan32 (w : Mem) (v : Option Validator) : Nat → Nat → Option String
  | _, 0 => none
  | i, count + 1 =>
    if i + 32 < w.size then
      let keyData := w.bytesList i 32
      match v with
      | some val =>
        if val.validate keyData then some (hexEncode keyData)
        else if val.validateImgKey keyData then some (hexEncode (keyData.take 16))
        else scan32 w v (i + 1) count
      | none =>
        if isValidKeyPattern keyData then some (hexEncode keyData)
        else scan32 w v (i + 1) count
    else none

/-- The 8-byte-pointer loop `for i := 0; i < len(w)-8; i++` shared by
`findSetDBKeyCall` (method 2) and `searchForKeyAroundSQLiteFunction`
(method 2): read a candidate little-endian pointer, accept it when
`ptrValue > 0x10000 && ptrValue < uint64(len(fullMemory))-32` (note the
Go `uint64` subtraction, which wraps when `len(fullMemory) < 32`), and
dereference `fullMemory[ptrValue : ptrValue+32]`; the dereference panics
when the slice bounds exceed `fullMemory.size`. -/
def scanPtr8 (w fullMemory : Mem) (v : Option Validator) : Nat → Nat → SRes
  | _, 0 => SRes.miss
  | i, count + 1 =>
    if i + 8 < w.size then
      let ptrValue := le64 w i
      if 65536 < ptrValue ∧ ptrValue < u64sub fullMemory.size 32 then
        if ptrValue + 32 ≤ fullMemory.size then
          let keyData := fullMemory.bytesList ptrValue 32
          match v with
          | some val =>
            if val.validate keyData then SRes.key (hexEncode keyData)
            else if val.validateImgKey keyData then SRes.key (hexEncode (keyData.take 16))
            else scanPtr8 w fullMemory v (i + 1) count
          | none =>
            if isValidKeyPattern keyData then SRes.key (hexEncode keyData)
            else scanPtr8 w fullMemory v (i + 1) count
        else SRes.panicked
      else scanPtr8 w fullMemory v (i + 1) count
    else SRes.miss

/-- `SetDBKeyLogSearch.findSetDBKeyCall`: 32-byte windows first, then
8-byte pointer windows dereferenced into the full chunk. -/
def findSetDBKeyCall (localMemory fullMemory : Mem) (v : Option Validator) : SRes :=
  match scan32 localMemory v 0 localMemory.size with
  | some k => SRes.key k
  | none => scanPtr8 localMemory fullMemory v 0 localMemory.size

/-- `findKeyInRange` (textually identical in `SetDBKeyLogSearch` and
`WeixinDLLSearch`): scan all 32-byte windows of the given range. -/
def findKeyInRange (memory : Mem) (v : Option Validator) : Option String :=
  scan32 memory v 0 memory.size

/-- ASCII bytes of the marker string SetDBKey. -/
def setDBKeyPat : List Nat := [83, 101, 116, 68, 66, 75, 101, 121]

/-- One iteration of a marker-scan loop either stops the whole loop
with a result (`stop`) or continues with a new value of the Go variable
`index` (`next`).  `stop none` records that an inner loop ran out of
fuel. -/
inductive LoopStep where
  | stop (r : Option SRes)
  | next (idx2 : Nat)
deriving DecidableEq

/-- One iteration of the `for` loop of `SetDBKeyLogSearch.Search`.
`idx` is the Go variable `index` at entry.  NOTE (faithful to the
source): `bytes.Index` is applied to `memory[index:]` and returns an
offset relative to `index`, but the source assigns that relative offset
back to `index` (`index = bytes.Index(memory[index:], pat)`), so
`actualIndex` and the window bounds are computed from the relative
offset. -/
def setDBKeyIter (memory : Mem) (v : Option Validator) (idx : Nat) : LoopStep :=
  match bytesIndex memory idx setDBKeyPat with
  | none => LoopStep.stop (some SRes.miss)
  | some r =>
    let actualIndex := r
    let idx2 := r + 8
    let start := actualIndex - 200
    let stop := min (idx2 + 200) memory.size
    let localMemory := memory.slice start stop
    match findSetDBKeyCall localMemory memory v with
    | SRes.key k => LoopStep.stop (some (SRes.key k))
    | SRes.panicked => LoopStep.stop (some SRes.panicked)
    | SRes.miss =>
      match findKeyInRange localMemory v with
      | some k => LoopStep.stop (some (SRes.key k))
      | none => LoopStep.next idx2

/-- The `for` loop of `SetDBKeyLogSearch.Search`: iterate `setDBKeyIter`. -/
def setDBKeyLoop (memory : Mem) (v : Option Validator) : Nat → Nat → Option SRes
  | _, 0 => none
  | idx, fuel + 1 =>
    match setDBKeyIter memory v idx with
    | LoopStep.stop r => r
    | LoopStep.next idx2 => setDBKeyLoop memory v idx2 fuel

/-- `SetDBKeyLogSearch.Search` with a never-cancelled context. -/
def setDBKeySearch (memory : Mem) (v : Option Validator) (fuel : Nat) : Option SRes :=
  setDBKeyLoop memory v 0 fuel

/-- ASCII bytes of the marker string unopened. -/
def unopenedPat : List Nat := [117, 110, 111, 112, 101, 110, 101, 100]

/-- ASCII bytes of the six sub-markers of `SQLiteSafetySearch`. -/
def sqlitePatterns : List (List Nat) :=
  [[115, 113, 108, 105, 116, 101, 51, 95, 101, 120, 101, 99],
   [115, 113, 108, 105, 116, 101, 51, 95, 112, 114, 101, 112, 97, 114, 101, 95, 118, 50],
   [115, 113, 108, 105, 116, 101, 51, 95, 112, 114, 101, 112, 97, 114, 101],
   [115, 113, 108, 105, 116, 101, 51, 95, 115, 116, 101, 112],
   [115, 101, 116, 67, 105, 112, 104, 101, 114, 75, 101, 121],
   [87, 67, 68, 66]]

/-- `SQLiteSafetySearch.searchForKeyAroundSQLiteFunction`: a window of
±500 bytes around `patternStart` inside `localMemory`, scanned first for
32-byte key windows, then for 8-byte pointers into the full chunk. -/
def searchForKeyAroundSQLiteFunction (localMemory : Mem) (patternStart : Nat)
    (fullMemory : Mem) (v : Option Validator) : SRes :=
  let start := patternStart - 500
  let stop := min (patternStart + 500) localMemory.size
  let searchArea := localMemory.slice start stop
  match scan32 searchArea v 0 searchArea.size with
  | some k => SRes.key k
  | none => scanPtr8 searchArea fullMemory v 0 searchArea.size

/-- One iteration of the per-sub-marker loop of
`searchSQLiteRelatedFunctions`; it has the same relative-offset
reassignment of `index` as `SetDBKeyLogSearch.Search`. -/
def sqliteInnerIter (localMemory fullMemory : Mem) (v : Option Validator)
    (pat : List Nat) (idx : Nat) : LoopStep :=
  match bytesIndex localMemory idx pat with
  | none => LoopStep.stop (some SRes.miss)
  | some r =>
    let patternStart := r
    let idx2 := r + pat.length
    match searchForKeyAroundSQLiteFunction localMemory patternStart fullMemory v with
    | SRes.key k => LoopStep.stop (some (SRes.key k))
    | SRes.panicked => LoopStep.stop (some SRes.panicked)
    | SRes.miss => LoopStep.next idx2

/-- The per-sub-marker loop of `searchSQLiteRelatedFunctions`. -/
def sqliteInnerLoop (localMemory fullMemory : Mem) (v : Option Validator)
    (pat : List Nat) : Nat → Nat → Option SRes
  | _, 0 => none
  | idx, fuel + 1 =>
    match sqliteInnerIter localMemory fullMemory v pat idx with
    | LoopStep.stop r => r
    | LoopStep.next idx2 => sqliteInnerLoop localMemory fullMemory v pat idx2 fuel

/-- `searchSQLiteRelatedFunctions`: try each sub-marker in order. -/
def sqliteRelatedList (localMemory fullMemory : Mem) (v : Option Validator) :
    List (List Nat) → Nat → Option SRes
  | [], _ => some SRes.miss
  | p :: ps, fuel =>
    match sqliteInnerLoop localMemory fullMemory v p 0 fuel with
    | none => none
    | some (SRes.key k) => some (SRes.key k)
    | some SRes.panicked => some SRes.panicked
    | some SRes.miss => sqliteRelatedList localMemory fullMemory v ps fuel

/-- One iteration of the `for` loop of `SQLiteSafetySearch.Search`,
with the same relative-offset reassignment of `index` as the SetDBKey
loop.  `fuel` bounds the inner sub-marker loops. -/
def sqliteSafetyIter (memory : Mem) (v : Option Validator) (fuel idx : Nat) : LoopStep :=
  match bytesIndex memory idx unopenedPat with
  | none => LoopStep.stop (some SRes.miss)
  | some r =>
    let actualIndex := r
    let idx2 := r + 8
    let start := actualIndex - 1000
    let stop := min (idx2 + 1000) memory.size
    let localMemory := memory.slice start stop
    match sqliteRelatedList localMemory memory v sqlitePatterns fuel with
    | none => LoopStep.stop none
    | some (SRes.key k) => LoopStep.stop (some (SRes.key k))
    | some SRes.panicked => LoopStep.stop (some SRes.panicked)
    | some SRes.miss => LoopStep.next idx2

/-- The `for` loop of `SQLiteSafetySearch.Search`. -/
def sqliteSafetyLoop (memory : Mem) (v : Option Validator) : Nat → Nat → Option SRes
  | _, 0 => none
  | idx, fuel + 1 =>
    match sqliteSafetyIter memory v fuel idx with
    | LoopStep.stop r => r
    | LoopStep.next idx2 => sqliteSafetyLoop memory v idx2 fuel

/-- `SQLiteSafetySearch.Search` with a never-cancelled context. -/
def sqliteSafetySearch (memory : Mem) (v : Option Validator) (fuel : Nat) : Option SRes :=
  sqliteSafetyLoop memory v 0 fuel

/-- ASCII bytes of the three `WeixinDLLSearch` markers:
Weixin.dll, xwechat_files, db_storage. -/
def weixinDLLPatterns : List (List Nat) :=
  [[87, 101, 105, 120, 105, 110, 46, 100, 108, 108],
   [120, 119, 101, 99, 104, 97, 116, 95, 102, 105, 108, 101, 115],
   [100, 98, 95, 115, 116, 111, 114, 97, 103, 101]]

/-- One iteration of the per-marker loop of `WeixinDLLSearch.Search`
(window bounds are computed from `index` after `index += len(pattern)`),
with the same relative-offset reassignment of `index`. -/
def weixinIter (memory : Mem) (v : Option Validator) (pat : List Nat) (idx : Nat) :
    LoopStep :=
  match bytesIndex memory idx pat with
  | none => LoopStep.stop (some SRes.miss)
  | some r =>
    let idx2 := r + pat.length
    let start := idx2 - 500
    let stop := min (idx2 + 500) memory.size
    match findKeyInRange (memory.slice start stop) v with
    | some k => LoopStep.stop (some (SRes.key k))
    | none => LoopStep.next idx2

/-- The per-marker loop of `WeixinDLLSearch.Search`. -/
def weixinLoop (memory : Mem) (v : Option Validator) (pat : List Nat) :
    Nat → Nat → Option SRes
  | _, 0 => none
  | idx, fuel + 1 =>
    match weixinIter memory v pat idx with
    | LoopStep.stop r => r
    | LoopStep.next idx2 => weixinLoop memory v pat idx2 fuel

/-- `WeixinDLLSearch.Search`: try the three markers in order. -/
def weixinPatternList (memory : Mem) (v : Option Validator) :
    List (List Nat) → Nat → Option SRes
  | [], _ => some SRes.miss
  | p :: ps, fuel =>
    match weixinLoop memory v p 0 fuel with
    | none => none
    | some (SRes.key k) => some (SRes.key k)
    | some SRes.panicked => some SRes.panicked
    | some SRes.miss => weixinPatternList memory v ps fuel

/-- `WeixinDLLSearch.Search` with a never-cancelled context. -/
def weixinDLLSearch (memory : Mem) (v : Option Validator) (fuel : Nat) : Option SRes :=
  weixinPatternList memory v weixinDLLPatterns fuel

/-- The V4 key pattern of `BasePatternSearch.Search` (and of the V4
worker): three little-endian 64-bit words 0, 32 (0x20), 47 (0x2F). -/
def v4KeyPattern : List Nat :=
  [0, 0, 0, 0, 0, 0, 0, 0, 32, 0, 0, 0, 0, 0, 0, 0, 47, 0, 0, 0, 0, 0, 0, 0]

/-- Result of `BasePatternSearch.Search` together with the list of
accepted pointer offsets, in scan order: every `ptrOffset` that passed
the guard `ptrOffset > 0x10000 && ptrOffset < len(memory)-0x20` and was
therefore used to extract `memory[ptrOffset : ptrOffset+0x20]`. -/
structure BPResult where
  key : String
  found : Bool
  accepted : List Nat
deriving DecidableEq

/-- The validator check of `BasePatternSearch.Search` on one extracted
candidate: with a nil validator the candidate is returned directly (the
test path); otherwise `Validate` yields the full hex key and
`ValidateImgKey` the hex of the first 16 bytes; `none` means the
candidate was rejected and the scan continues. -/
def bpValidate (v : Option Validator) (keyData : List Nat) : Option String :=
  match v with
  | none => some (hexEncode keyData)
  | some val =>
    if val.validate keyData then some (hexEncode keyData)
    else if val.validateImgKey keyData then some (hexEncode (keyData.take 16))
    else none

/-- The backward-scan loop of `BasePatternSearch.Search`: find the last
occurrence of the pattern before `idx`, read the preceding 8 bytes as a
Go `int` (two's-complement), treat it as an in-chunk offset, and on a
miss step back by the full pattern length. -/
def basePatternLoop (memory : Mem) (v : Option Validator) (idx : Nat) : BPResult :=
  match h : bytesLastIndex memory idx v4KeyPattern with
  | none => BPResult.mk "" false []
  | some i =>
    if i < 8 then BPResult.mk "" false []
    else
      let ptrOffset : Int := toInt64 (le64 memory (i - 8))
      if 65536 < ptrOffset ∧ ptrOffset < (memory.size : Int) - 32 then
        let o := ptrOffset.toNat
        match bpValidate v (memory.bytesList o 32) with
        | some k => BPResult.mk k true [o]
        | none =>
          let rest := basePatternLoop memory v (i - 24)
          BPResult.mk rest.key rest.found (o :: rest.accepted)
      else basePatternLoop memory v (i - 24)
termination_by idx
decreasing_by
  all_goals
    have hb := bytesLastIndex_bound memory idx v4KeyPattern i h
    simp only [v4KeyPattern, List.length_cons, List.length_nil] at hb
    omega

/-- `BasePatternSearch.Search` with a never-cancelled context (the Go
loop starts with `index := len(memory)`). -/
def basePatternSearch (memory : Mem) (v : Option Validator) : BPResult :=
  basePatternLoop memory v memory.size

def SRes.isPanicked : SRes → Bool
  | SRes.panicked => true
  | _ => false

def SRes.isKey : SRes → Bool
  | SRes.key _ => true
  | _ => false

/-- Deterministic abstraction of `V4Extractor.SearchKey`'s concurrent
fan-out over its four strategies: a panic in any strategy goroutine
crashes the whole process, hence dominates; otherwise the first strategy
result with `found = true` is returned, in the strategy order of
`NewV4Extractor`; otherwise `("", false)`.  This is exact whenever at
most one strategy yields a key, which holds in every scenario below
(the spec itself treats sequential and fanned-out strategy execution as
interchangeable). -/
def combineResults (l : List SRes) : SRes :=
  if l.any SRes.isPanicked then SRes.panicked
  else
    match l.find? SRes.isKey with
    | some r => r
    | none => SRes.miss

/-- A strategy result `(key, found)` as an `SRes`. -/
def bpToSRes (r : BPResult) : SRes :=
  if r.found then SRes.key r.key else SRes.miss

/-- `V4Extractor.SearchKey` (never-cancelled context): run the four
strategies of `NewV4Extractor` over the same chunk and combine.  `none`
when one of the marker loops is still running after `fuel` iterations. -/
def searchKey (memory : Mem) (v : Option Validator) (fuel : Nat) : Option SRes :=
  match setDBKeySearch memory v fuel, sqliteSafetySearch memory v fuel,
        weixinDLLSearch memory v fuel with
  | some r1, some r2, some r3 =>
    some (combineResults [bpToSRes (basePatternSearch memory v), r1, r2, r3])
  | _, _, _ => none

/- ### The end-to-end BasePattern scenario chunk (spec scenario 1,
`TestV4Extractor_SearchKey` test case 1) -/

/-- Byte `k` of the 32-byte ASCII test key
0123456789abcdef0123456789abcdef: digits then lower-case letters,
repeating with period 16. -/
def keyByte (k : Nat) : Nat :=
  if k % 16 < 10 then 48 + k % 16 else 97 + (k % 16 - 10)

/-- The scenario chunk: 0x10200 = 66048 bytes, all zero except the
32-byte ASCII key at offset 0x10100 = 65792, the little-endian 8-byte
pointer value 0x10100 at offset 0x200 = 512 (bytes 00 01 01 00 00 00 00 00),
and `v4KeyPattern` at offset 0x208 = 520 (its nonzero bytes being 0x20 at
0x210 = 528 and 0x2F at 0x218 = 536). -/
def memC4 : Mem where
  size := 66048
  byte := fun i =>
    if 65792 ≤ i ∧ i < 65824 then keyByte (i - 65792)
    else if i = 512 then 0
    else if i = 513 then 1
    else if i = 514 then 1
    else if i = 528 then 32
    else if i = 536 then 47
    else 0

/- ### V3 extractor (file of `V3Extractor.Extract`, `findMemory`, `worker`,
`validateKey`, `FindModule`) -/

/-- The V3 key pattern (`keyPattern` in `V3Extractor.worker`): the
little-endian encoding of the integer 32, of pointer width — 8 bytes on
64-bit targets, truncated to 4 bytes on 32-bit targets. -/
def v3KeyPattern (is64Bit : Bool) : List Nat :=
  if is64Bit then [32, 0, 0, 0, 0, 0, 0, 0] else [32, 0, 0, 0]

/-- `ptrSize` in `V3Extractor.worker`. -/
def v3PtrSize (is64Bit : Bool) : Nat := if is64Bit then 8 else 4

/-- `littleEndianFunc` in `V3Extractor.worker`. -/
def v3PtrRead (is64Bit : Bool) (m : Mem) (i : Nat) : Nat :=
  if is64Bit then le64 m i else le32 m i

/-- `V3Extractor.validateKey`: read 32 bytes at target address `addr`
(`readKey addr = none` models a failing `ReadProcessMemory`), validate
them, and return the hex key or the empty string. -/
def v3ValidateKey (readKey : Nat → Option (List Nat)) (validate : List Nat → Bool)
    (addr : Nat) : String :=
  match readKey addr with
  | none => ""
  | some keyData => if validate keyData then hexEncode keyData else ""

/-- The per-chunk backward scan of `V3Extractor.worker` with a
never-cancelled context.  Returns the key sent on the result channel (if
any) and, second, the list of every pointer value that passed the guard
`ptrValue > 0x10000 && ptrValue < 0x7FFFFFFFFFFF` and was therefore
dereferenced by `validateKey` via `ReadProcessMemory`, in scan order.
Note the guard constant 0x7FFFFFFFFFFF = 140737488355327 is the same for
32-bit and 64-bit targets. -/
def v3ScanChunk (m : Mem) (is64Bit : Bool) (readKey : Nat → Option (List Nat))
    (validate : List Nat → Bool) (idx : Nat) : Option String × List Nat :=
  match h : bytesLastIndex m idx (v3KeyPattern is64Bit) with
  | none => (none, [])
  | some i =>
    if i < v3PtrSize is64Bit then (none, [])
    else
      let ptrValue := v3PtrRead is64Bit m (i - v3PtrSize is64Bit)
      if 65536 < ptrValue ∧ ptrValue < 140737488355327 then
        let key := v3ValidateKey readKey validate ptrValue
        if key ≠ "" then (some key, [ptrValue])
        else
          let rest := v3ScanChunk m is64Bit readKey validate (i - 1)
          (rest.1, ptrValue :: rest.2)
      else v3ScanChunk m is64Bit readKey validate (i - 1)
termination_by idx
decreasing_by
  all_goals
    have hb := bytesLastIndex_bound m idx (v3KeyPattern is64Bit) i h
    have hlen : 0 < (v3KeyPattern is64Bit).length := by
      cases is64Bit <;> simp [v3KeyPattern]
    omega

/-- Deterministic sequentialization of the V3 worker pool: chunks are
scanned in queue order and the first key found is the one received from
the result channel.  Exact whenever at most one chunk yields a key; in
the claims below the chunk list is empty, so the order is irrelevant. -/
def v3RunWorkers (chunks : List Mem) (is64Bit : Bool)
    (readKey : Nat → Option (List Nat)) (validate : List Nat → Bool) : Option String :=
  match chunks with
  | [] => none
  | c :: rest =>
    match (v3ScanChunk c is64Bit readKey validate c.size).1 with
    | some k => some k
    | none => v3RunWorkers rest is64Bit readKey validate

/-- The worker-count computation of `V3Extractor.Extract`
(`workerCount := runtime.NumCPU();` then clamp to at least 2 and at most
`MaxWorkers = 16`). -/
def v3WorkerCount (numCPU : Nat) : Nat :=
  let w := numCPU
  let w2 := if w < 2 then 2 else w
  if w2 > 16 then 16 else w2

/-- The identical worker-count computation of `V4Extractor.Extract`. -/
def v4WorkerCount (numCPU : Nat) : Nat :=
  let w := numCPU
  let w2 := if w < 2 then 2 else w
  if w2 > 16 then 16 else w2

/- ### Region enumeration (`V3Extractor.findMemory`, `V4Extractor.findMemory`) -/

/-- A region descriptor as returned by `VirtualQueryEx`
(`windows.MemoryBasicInformation`), restricted to the fields the
extractors read. -/
structure Region where
  baseAddress : Nat
  regionSize : Nat
  protect : Nat
  state : Nat
  rtype : Nat
deriving DecidableEq

def PAGE_READWRITE : Nat := 4
def PAGE_WRITECOPY : Nat := 8
def PAGE_EXECUTE_READWRITE : Nat := 64
def PAGE_EXECUTE_WRITECOPY : Nat := 128
def MEM_COMMIT : Nat := 4096
def MEM_PRIVATE : Nat := 131072

/-- One attempted `ReadProcessMemory` call of a region enumerator: the
region being read, the start address and length of the read, and
whether the read succeeded and the chunk was emitted to the channel. -/
structure ReadEvent where
  region : Region
  addr : Nat
  size : Nat
  emitted : Bool
deriving DecidableEq

/-- The region walk of `V3Extractor.findMemory` (after the module was
found), from `currentAddr` up to `endAddr = base + moduleSize`:
`query` models `VirtualQueryEx` (`none` = error, which breaks the loop),
`readOk`/`readChunk` model `ReadProcessMemory`.  Returns the chunks
emitted to the memory channel and the list of attempted reads.  `fuel`
bounds the iteration count (termination of this walk depends on the OS
advancing the cursor and is not among the claims). -/
def v3FindMemoryLoop (query : Nat → Option Region) (readOk : Nat → Nat → Bool)
    (readChunk : Nat → Nat → Mem) (endAddr : Nat) :
    Nat → Nat → List Mem × List ReadEvent
  | _, 0 => ([], [])
  | currentAddr, fuel + 1 =>
    if currentAddr < endAddr then
      match query currentAddr with
      | none => ([], [])
      | some mbi =>
        if mbi.regionSize < 102400 then
          v3FindMemoryLoop query readOk readChunk endAddr (currentAddr + mbi.regionSize) fuel
        else
          if mbi.protect &&& (PAGE_READWRITE ||| PAGE_WRITECOPY |||
              PAGE_EXECUTE_READWRITE ||| PAGE_EXECUTE_WRITECOPY) > 0 ∧
              mbi.state = MEM_COMMIT then
            let regionSize :=
              if currentAddr + mbi.regionSize > endAddr then endAddr - currentAddr
              else mbi.regionSize
            let rest :=
              v3FindMemoryLoop query readOk readChunk endAddr
                (mbi.baseAddress + mbi.regionSize) fuel
            let emitted := readOk currentAddr regionSize
            ((if emitted then readChunk currentAddr regionSize :: rest.1 else rest.1),
              ReadEvent.mk mbi currentAddr regionSize emitted :: rest.2)
          else
            v3FindMemoryLoop query readOk readChunk endAddr
              (mbi.baseAddress + mbi.regionSize) fuel
    else ([], [])

/-- The region walk of `V4Extractor.findMemory`, from `minAddr = 0x10000`
up to `maxAddr` (0x7FFFFFFF or 0x7FFFFFFFFFFF depending on
`runtime.GOARCH`), with the 1 MiB threshold and the
committed/PAGE_READWRITE/MEM_PRIVATE filter; never-cancelled context. -/
def v4FindMemoryLoop (query : Nat → Option Region) (readOk : Nat → Nat → Bool)
    (readChunk : Nat → Nat → Mem) (maxAddr : Nat) :
    Nat → Nat → List Mem × List ReadEvent
  | _, 0 => ([], [])
  | currentAddr, fuel + 1 =>
    if currentAddr < maxAddr then
      match query currentAddr with
      | none => ([], [])
      | some memInfo =>
        if memInfo.regionSize < 1048576 then
          v4FindMemoryLoop query readOk readChunk maxAddr
            (currentAddr + memInfo.regionSize) fuel
        else
          if memInfo.state = MEM_COMMIT ∧ memInfo.protect &&& PAGE_READWRITE ≠ 0 ∧
              memInfo.rtype = MEM_PRIVATE then
            let regionSize :=
              if currentAddr + memInfo.regionSize > maxAddr then maxAddr - currentAddr
              else memInfo.regionSize
            let rest :=
              v4FindMemoryLoop query readOk readChunk maxAddr
                (memInfo.baseAddress + memInfo.regionSize) fuel
            let emitted := readOk currentAddr regionSize
            ((if emitted then readChunk currentAddr regionSize :: rest.1 else rest.1),
              ReadEvent.mk memInfo currentAddr regionSize emitted :: rest.2)
          else
            v4FindMemoryLoop query readOk readChunk maxAddr
              (memInfo.baseAddress + memInfo.regionSize) fuel
    else ([], [])

/- ### Extract orchestration (V3 and V4) -/

/-- Liveness of the target process (`model.Status`). -/
inductive ProcStatus where
  | online
  | offline
deriving DecidableEq

/-- The error sum type of the extractors (`internal/errors`), restricted
to the values reachable in the embedded code paths.  `is64BitFailed`
stands for the error propagated verbatim from `util.Is64Bit`. -/
inductive ExtractErr where
  | weChatOffline
  | openProcessFailed
  | weChatDLLNotFound
  | is64BitFailed
  | noValidKey
deriving DecidableEq

/-- A loaded module as returned by `FindModule`
(`windows.ModuleEntry32`, fields `ModBaseAddr`, `ModBaseSize`). -/
structure V3Module where
  modBaseAddr : Nat
  modBaseSize : Nat
deriving DecidableEq

/-- Observable result of one `Extract` call, with two pieces of
instrumentation: whether `OpenProcess` was called, and how many worker
goroutines were spawned. -/
structure ExtractOut where
  dataKey : String
  imgKey : String
  err : Option ExtractErr
  openedHandle : Bool
  workersSpawned : Nat
deriving DecidableEq

/-- Abstract OS and process environment of one V3 `Extract` call. -/
structure V3Env where
  status : ProcStatus
  openOk : Bool
  is64Bit : Option Bool
  numCPU : Nat
  findModule : Option V3Module
  query : Nat → Option Region
  readOk : Nat → Nat → Bool
  readChunk : Nat → Nat → Mem
  readKey : Nat → Option (List Nat)
  validate : List Nat → Bool
  fuel : Nat

/-- `V3Extractor.findMemory`: look up WeChatWin.dll via `FindModule`,
returning `ErrWeChatDLLNotFound` when absent, otherwise walk the
module-bounded region range and emit chunks.  The error is returned to
the producer goroutine, which only logs it. -/
def v3FindMemory (env : V3Env) : List Mem × Option ExtractErr :=
  match env.findModule with
  | none => ([], some ExtractErr.weChatDLLNotFound)
  | some m =>
    ((v3FindMemoryLoop env.query env.readOk env.readChunk
        (m.modBaseAddr + m.modBaseSize) m.modBaseAddr env.fuel).1, none)

/-- `V3Extractor.Extract`: offline check, `OpenProcess`, `Is64Bit`,
worker/producer spawn, and the final select on the result channel.  The
producer's `findMemory` error is logged, never surfaced: the call falls
through to `ErrNoValidKey` when no worker sends a key. -/
def v3Extract (env : V3Env) : ExtractOut :=
  if env.status = ProcStatus.offline then
    ExtractOut.mk "" "" (some ExtractErr.weChatOffline) false 0
  else if env.openOk = false then
    ExtractOut.mk "" "" (some ExtractErr.openProcessFailed) true 0
  else
    match env.is64Bit with
    | none => ExtractOut.mk "" "" (some ExtractErr.is64BitFailed) true 0
    | some is64 =>
      let w := v3WorkerCount env.numCPU
      let fm := v3FindMemory env
      match v3RunWorkers fm.1 is64 env.readKey env.validate with
      | some key => ExtractOut.mk key "" none true w
      | none => ExtractOut.mk "" "" (some ExtractErr.noValidKey) true w

/-- Abstract environment of one V4 `Extract` call.  `results` is the
sequence of `[2]string` pairs received from the result channel, in
arrival order (an abstraction of the worker pool's nondeterministic
schedule). -/
structure V4Env where
  status : ProcStatus
  openOk : Bool
  numCPU : Nat
  results : List (String × String)

/-- The result-merging loop of `V4Extractor.Extract` (identical in both
copies of the V4 extractor): for each received pair, overwrite
`finalDataKey` with `result[0]` whenever `result[0]` is non-empty and
likewise `finalImgKey` with `result[1]`, returning early as soon as both
are non-empty; at channel close return the accumulated pair. -/
def v4MergeLoop : List (String × String) → String → String → String × String
  | [], d, i => (d, i)
  | r :: rs, d, i =>
    let d2 := if r.1 ≠ "" then r.1 else d
    let i2 := if r.2 ≠ "" then r.2 else i
    if d2 ≠ "" ∧ i2 ≠ "" then (d2, i2) else v4MergeLoop rs d2 i2

/-- The successive states `(finalDataKey, finalImgKey)` of the merging
loop, one after each processed result (stopping at the early return). -/
def v4MergeTrace : List (String × String) → String → String → List (String × String)
  | [], _, _ => []
  | r :: rs, d, i =>
    let d2 := if r.1 ≠ "" then r.1 else d
    let i2 := if r.2 ≠ "" then r.2 else i
    if d2 ≠ "" ∧ i2 ≠ "" then [(d2, i2)] else (d2, i2) :: v4MergeTrace rs d2 i2

/-- `V4Extractor.Extract` (identical in both copies): offline check,
`OpenProcess`, worker spawn, then the merging loop over the received
results; `ErrNoValidKey` iff the channel closed with both slots empty. -/
def v4Extract (env : V4Env) : ExtractOut :=
  if env.status = ProcStatus.offline then
    ExtractOut.mk "" "" (some ExtractErr.weChatOffline) false 0
  else if env.openOk = false then
    ExtractOut.mk "" "" (some ExtractErr.openProcessFailed) true 0
  else
    let w := v4WorkerCount env.numCPU
    let p := v4MergeLoop env.results "" ""
    if p.1 = "" ∧ p.2 = "" then
      ExtractOut.mk "" "" (some ExtractErr.noValidKey) true w
    else
      ExtractOut.mk p.1 p.2 none true w

/- ### Concrete inputs for the scenarios and counterexamples -/

/-- A validator that rejects every candidate (as when no key material is
present in the scanned memory). -/
def rejectAllV : Validator := Validator.mk (fun _ => false) (fun _ => false)

/-- 48-byte chunk: the ASCII text SetDBKeySetDBKey (the marker twice,
at offsets 0 and 8) followed by 32 zero bytes. -/
def memC5 : Mem where
  size := 48
  byte := fun i => if i < 16 then setDBKeyPat.getD (i % 8) 0 else 0

/-- 31-byte chunk (fewer than S + len(P) = 32 bytes): the ASCII text
SetDBKey followed by 23 zero bytes. -/
def memC6 : Mem where
  size := 31
  byte := fun i => if i < 8 then setDBKeyPat.getD i 0 else 0

/-- 8-byte chunk for the 32-bit V3 worker: bytes
00 00 00 80 20 00 00 00 — the 4-byte pattern at offset 4 preceded by the
little-endian 32-bit pointer 0x80000000. -/
def memC3 : Mem where
  size := 8
  byte := fun i => if i = 3 then 128 else if i = 4 then 32 else 0

/-- A V3 environment: process online, handle opened, 64-bit check fine,
but WeChatWin.dll absent from the target. -/
def envC2 : V3Env where
  status := ProcStatus.online
  openOk := true
  is64Bit := some true
  numCPU := 8
  findModule := none
  query := fun _ => none
  readOk := fun _ _ => false
  readChunk := fun _ _ => Mem.mk 0 (fun _ => 0)
  readKey := fun _ => none
  validate := fun _ => false
  fuel := 0

/-- A V3 environment for an offline process. -/
def envC8v3 : V3Env where
  status := ProcStatus.offline
  openOk := true
  is64Bit := some true
  numCPU := 8
  findModule := none
  query := fun _ => none
  readOk := fun _ _ => false
  readChunk := fun _ _ => Mem.mk 0 (fun _ => 0)
  readKey := fun _ => none
  validate := fun _ => false
  fuel := 0

/-- A V4 environment for an offline process. -/
def envC8v4 : V4Env where
  status := ProcStatus.offline
  openOk := true
  numCPU := 8
  results := []

/- ### C9 witness environment -/

/-- A 2 MiB committed, read-write, private region at address 0. -/
def regC9 : Region := Region.mk 0 2097152 4 4096 131072

/-- A query serving exactly one region, at address 0. -/
def queryC9 : Nat → Option Region := fun a => if a = 0 then some regC9 else none

/-- The read event both enumerators produce for `regC9`. -/
def evC9 : ReadEvent := ReadEvent.mk regC9 0 2097152 true

/- ### Basic lemmas about the search primitives -/

theorem matchPatAt_eq_true_iff (m : Mem) (pat : List Nat) :
    ∀ i, matchPatAt m i pat = true ↔ ∀ k, k < pat.length → m.get (i + k) = pat.getD k 0 := by
  induction pat with
  | nil => intro i; simp [matchPatAt]
  | cons b bs ih =>
    intro i
    simp only [matchPatAt, Bool.and_eq_true, beq_iff_eq, ih (i + 1)]
    constructor
    · rintro ⟨h0, hrest⟩ k hk
      cases k with
      | zero => simpa using h0
      | succ k' =>
        have := hrest k' (by simpa [List.length_cons] using hk)
        simpa [Nat.add_assoc, Nat.add_comm 1 k'] using this
    · intro h
      refine ⟨by simpa using h 0 (by simp), fun k hk => ?_⟩
      have := h (k + 1) (by simpa [List.length_cons] using hk)
      simpa [Nat.add_assoc, Nat.add_comm 1 k] using this

theorem lastIndexFrom_skip (m : Mem) (pat : List Nat) (a : Nat) :
    ∀ b, a ≤ b → (∀ i, a < i → i ≤ b → matchPatAt m i pat = false) →
      lastIndexFrom m pat b = lastIndexFrom m pat a := by
  intro b
  induction b with
  | zero => intro hab _; have : a = 0 := by omega
            rw [this]
  | succ n ih =>
    intro hab hno
    rcases Nat.lt_or_ge a (n + 1) with hlt | hge
    · have hfalse : matchPatAt m (n + 1) pat = false := hno (n + 1) hlt (Nat.le_refl _)
      have : lastIndexFrom m pat (n + 1) = lastIndexFrom m pat n := by
        simp [lastIndexFrom, hfalse]
      rw [this]
      exact ih (by omega) (fun i hi hi2 => hno i hi (by omega))
    · have : a = n + 1 := by omega
      rw [this]

theorem indexSearchAux_eq_none (m : Mem) (pat : List Nat) (base : Nat)
    (h : ∀ j, matchPatAt m j pat = false) :
    ∀ count r, indexSearchAux m pat base count r = none := by
  intro count
  induction count with
  | zero => intro r; rfl
  | succ n ih => intro r; simp [indexSearchAux, h (base + r), ih]

theorem bytesIndex_eq_none (m : Mem) (lo : Nat) (pat : List Nat)
    (h : ∀ j, matchPatAt m j pat = false) : bytesIndex m lo pat = none := by
  unfold bytesIndex
  split
  · exact indexSearchAux_eq_none m pat lo h _ _
  · rfl

/- ### Byte-level facts about the scenario chunk -/

theorem keyByte_lt (k : Nat) : keyByte k < 256 := by
  unfold keyByte
  split <;> omega

theorem keyByte_vals (k : Nat) :
    (48 ≤ keyByte k ∧ keyByte k ≤ 57) ∨ (97 ≤ keyByte k ∧ keyByte k ≤ 102) := by
  unfold keyByte
  split
  · left; omega
  · right; omega

theorem keyByte_eq_100 (k : Nat) (h : keyByte k = 100) : k % 16 = 13 := by
  unfold keyByte at h
  split at h <;> omega

theorem memC4_get_eq_byte (i : Nat) : memC4.get i = memC4.byte i := by
  have hlt : memC4.byte i < 256 := by
    show (if 65792 ≤ i ∧ i < 65824 then keyByte (i - 65792)
      else if i = 512 then 0 else if i = 513 then 1 else if i = 514 then 1
      else if i = 528 then 32 else if i = 536 then 47 else 0) < 256
    split_ifs <;> first | omega | exact keyByte_lt _
  exact Nat.mod_eq_of_lt hlt

theorem memC4_get_eq_32 (j : Nat) (h : memC4.get j = 32) : j = 528 := by
  rw [memC4_get_eq_byte] at h
  revert h
  show (if 65792 ≤ j ∧ j < 65824 then keyByte (j - 65792)
    else if j = 512 then 0 else if j = 513 then 1 else if j = 514 then 1
    else if j = 528 then 32 else if j = 536 then 47 else 0) = 32 → j = 528
  split_ifs with h1 h2 h3 h4 h5 h6 <;> intro h
  · rcases keyByte_vals (j - 65792) with hv | hv <;> omega
  all_goals first | exact h.elim | omega

theorem memC4_get_ne_83 (j : Nat) : memC4.get j ≠ 83 := by
  rw [memC4_get_eq_byte]
  show (if 65792 ≤ j ∧ j < 65824 then keyByte (j - 65792)
    else if j = 512 then 0 else if j = 513 then 1 else if j = 514 then 1
    else if j = 528 then 32 else if j = 536 then 47 else 0) ≠ 83
  split_ifs with h1 h2 h3 h4 h5 h6 <;>
    (rcases keyByte_vals (j - 65792) with hv | hv <;> omega)

theorem memC4_get_ne_117 (j : Nat) : memC4.get j ≠ 117 := by
  rw [memC4_get_eq_byte]
  show (if 65792 ≤ j ∧ j < 65824 then keyByte (j - 65792)
    else if j = 512 then 0 else if j = 513 then 1 else if j = 514 then 1
    else if j = 528 then 32 else if j = 536 then 47 else 0) ≠ 117
  split_ifs with h1 h2 h3 h4 h5 h6 <;>
    (rcases keyByte_vals (j - 65792) with hv | hv <;> omega)

theorem memC4_get_ne_87 (j : Nat) : memC4.get j ≠ 87 := by
  rw [memC4_get_eq_byte]
  show (if 65792 ≤ j ∧ j < 65824 then keyByte (j - 65792)
    else if j = 512 then 0 else if j = 513 then 1 else if j = 514 then 1
    else if j = 528 then 32 else if j = 536 then 47 else 0) ≠ 87
  split_ifs with h1 h2 h3 h4 h5 h6 <;>
    (rcases keyByte_vals (j - 65792) with hv | hv <;> omega)

theorem memC4_get_ne_120 (j : Nat) : memC4.get j ≠ 120 := by
  rw [memC4_get_eq_byte]
  show (if 65792 ≤ j ∧ j < 65824 then keyByte (j - 65792)
    else if j = 512 then 0 else if j = 513 then 1 else if j = 514 then 1
    else if j = 528 then 32 else if j = 536 then 47 else 0) ≠ 120
  split_ifs with h1 h2 h3 h4 h5 h6 <;>
    (rcases keyByte_vals (j - 65792) with hv | hv <;> omega)

theorem memC4_get_eq_100 (j : Nat) (h : memC4.get j = 100) : j = 65805 ∨ j = 65821 := by
  rw [memC4_get_eq_byte] at h
  revert h
  show (if 65792 ≤ j ∧ j < 65824 then keyByte (j - 65792)
    else if j = 512 then 0 else if j = 513 then 1 else if j = 514 then 1
    else if j = 528 then 32 else if j = 536 then 47 else 0) = 100 → j = 65805 ∨ j = 65821
  split_ifs with h1 h2 h3 h4 h5 h6 <;> intro h
  · have h13 := keyByte_eq_100 _ h
    omega
  all_goals first | exact h.elim | omega

/- ### Step lemmas for the marker-scan loops -/

theorem setDBKeyLoop_stop (memory : Mem) (v : Option Validator) (idx f : Nat)
    (r : Option SRes) (h : setDBKeyIter memory v idx = LoopStep.stop r) :
    setDBKeyLoop memory v idx (f + 1) = r := by
  rw [setDBKeyLoop, h]

theorem setDBKeyLoop_next (memory : Mem) (v : Option Validator) (idx f idx2 : Nat)
    (h : setDBKeyIter memory v idx = LoopStep.next idx2) :
    setDBKeyLoop memory v idx (f + 1) = setDBKeyLoop memory v idx2 f := by
  rw [setDBKeyLoop, h]

theorem setDBKeyIter_noMarker (memory : Mem) (v : Option Validator) (idx : Nat)
    (h : bytesIndex memory idx setDBKeyPat = none) :
    setDBKeyIter memory v idx = LoopStep.stop (some SRes.miss) := by
  rw [setDBKeyIter, h]

theorem sqliteSafetyLoop_stop (memory : Mem) (v : Option Validator) (idx f : Nat)
    (r : Option SRes) (h : sqliteSafetyIter memory v f idx = LoopStep.stop r) :
    sqliteSafetyLoop memory v idx (f + 1) = r := by
  rw [sqliteSafetyLoop, h]

theorem sqliteSafetyIter_noMarker (memory : Mem) (v : Option Validator) (f idx : Nat)
    (h : bytesIndex memory idx unopenedPat = none) :
    sqliteSafetyIter memory v f idx = LoopStep.stop (some SRes.miss) := by
  rw [sqliteSafetyIter, h]

theorem weixinLoop_stop (memory : Mem) (v : Option Validator) (pat : List Nat)
    (idx f : Nat) (r : Option SRes) (h : weixinIter memory v pat idx = LoopStep.stop r) :
    weixinLoop memory v pat idx (f + 1) = r := by
  rw [weixinLoop, h]

theorem weixinIter_noMarker (memory : Mem) (v : Option Validator) (pat : List Nat)
    (idx : Nat) (h : bytesIndex memory idx pat = none) :
    weixinIter memory v pat idx = LoopStep.stop (some SRes.miss) := by
  rw [weixinIter, h]

/- ### Per-byte falsification of pattern matches -/

theorem matchPat_false_of_k (m : Mem) (pat : List Nat) (j k : Nat)
    (hk : k < pat.length) (h : m.get (j + k) ≠ pat.getD k 0) :
    matchPatAt m j pat = false := by
  cases hm : matchPatAt m j pat
  · rfl
  · exact absurd ((matchPatAt_eq_true_iff m pat j).mp hm k hk) h

/- ### Evaluation of the scenario chunk `memC4` -/

theorem memC4_noMatch_v4 (i : Nat) (hne : i ≠ 520) :
    matchPatAt memC4 i v4KeyPattern = false := by
  cases hm : matchPatAt memC4 i v4KeyPattern
  · rfl
  · exfalso
    have h8 := (matchPatAt_eq_true_iff memC4 v4KeyPattern i).mp hm 8 (by simp [v4KeyPattern])
    have : memC4.get (i + 8) = 32 := by simpa [v4KeyPattern] using h8
    have := memC4_get_eq_32 _ this
    omega

theorem memC4_lastIndex_v4 :
    bytesLastIndex memC4 66048 v4KeyPattern = some 520 := by
  have hlen : v4KeyPattern.length = 24 := by decide
  unfold bytesLastIndex
  rw [hlen]
  have h1 : lastIndexFrom memC4 v4KeyPattern 66024 = lastIndexFrom memC4 v4KeyPattern 520 :=
    lastIndexFrom_skip memC4 v4KeyPattern 520 66024 (by omega)
      (fun i hi _ => memC4_noMatch_v4 i (by omega))
  have h2 : lastIndexFrom memC4 v4KeyPattern 520 = some 520 := by
    rw [show (520 : Nat) = 519 + 1 from rfl]
    rw [show lastIndexFrom memC4 v4KeyPattern (519 + 1)
        = if matchPatAt memC4 (519 + 1) v4KeyPattern then some (519 + 1)
          else lastIndexFrom memC4 v4KeyPattern 519 from rfl]
    have : matchPatAt memC4 (519 + 1) v4KeyPattern = true := by decide
    rw [this]
    simp
  simp only [show (66048 : Nat) - 24 = 66024 from rfl]
  split
  · rw [h1, h2]
  · omega

theorem memC4_le64_512 : le64 memC4 512 = 65792 := by decide

theorem bp_memC4 :
    basePatternSearch memC4 none
      = BPResult.mk (hexEncode (memC4.bytesList 65792 32)) true [65792] := by
  unfold basePatternSearch
  rw [basePatternLoop]
  split
  · next heq =>
      rw [show memC4.size = 66048 from rfl] at heq
      rw [memC4_lastIndex_v4] at heq
      exact absurd heq (by simp)
  · next i heq =>
      rw [show memC4.size = 66048 from rfl] at heq
      rw [memC4_lastIndex_v4] at heq
      have hi : i = 520 := by simpa using heq.symm
      subst hi
      have hptr : toInt64 (le64 memC4 512) = 65792 := by
        rw [memC4_le64_512]; decide
      rw [if_neg (by omega)]
      simp only [show (520 : Nat) - 8 = 512 from rfl, hptr,
        show memC4.size = 66048 from rfl]
      rw [if_pos (by decide)]
      decide

theorem memC4_noMatch_setDBKey (j : Nat) : matchPatAt memC4 j setDBKeyPat = false :=
  matchPat_false_of_k memC4 setDBKeyPat j 0 (by decide)
    (by simpa [setDBKeyPat] using memC4_get_ne_83 j)

theorem memC4_noMatch_unopened (j : Nat) : matchPatAt memC4 j unopenedPat = false :=
  matchPat_false_of_k memC4 unopenedPat j 0 (by decide)
    (by simpa [unopenedPat] using memC4_get_ne_117 j)

theorem memC4_noMatch_weixin1 (j : Nat) :
    matchPatAt memC4 j [87, 101, 105, 120, 105, 110, 46, 100, 108, 108] = false :=
  matchPat_false_of_k memC4 _ j 0 (by decide) (by simpa using memC4_get_ne_87 j)

theorem memC4_noMatch_weixin2 (j : Nat) :
    matchPatAt memC4 j [120, 119, 101, 99, 104, 97, 116, 95, 102, 105, 108, 101, 115] = false :=
  matchPat_false_of_k memC4 _ j 0 (by decide) (by simpa using memC4_get_ne_120 j)

theorem memC4_noMatch_weixin3 (j : Nat) :
    matchPatAt memC4 j [100, 98, 95, 115, 116, 111, 114, 97, 103, 101] = false := by
  cases hm : matchPatAt memC4 j [100, 98, 95, 115, 116, 111, 114, 97, 103, 101]
  · rfl
  · exfalso
    have h0 := (matchPatAt_eq_true_iff memC4 _ j).mp hm 0 (by decide)
    have h1 := (matchPatAt_eq_true_iff memC4 _ j).mp hm 1 (by decide)
    simp only [List.getD] at h0 h1
    rcases memC4_get_eq_100 _ (by simpa using h0) with h | h
    · have hj : j = 65805 := by omega
      subst hj
      have : memC4.get 65806 = 101 := by decide
      simp_all
    · have hj : j = 65821 := by omega
      subst hj
      have : memC4.get 65822 = 101 := by decide
      simp_all

theorem setdb_memC4 (f : Nat) : setDBKeySearch memC4 none (f + 1) = some SRes.miss := by
  unfold setDBKeySearch
  exact setDBKeyLoop_stop memC4 none 0 f _
    (setDBKeyIter_noMarker memC4 none 0 (bytesIndex_eq_none _ _ _ memC4_noMatch_setDBKey))

theorem sqlite_memC4 (f : Nat) : sqliteSafetySearch memC4 none (f + 1) = some SRes.miss := by
  unfold sqliteSafetySearch
  exact sqliteSafetyLoop_stop memC4 none 0 f _
    (sqliteSafetyIter_noMarker memC4 none f 0
      (bytesIndex_eq_none _ _ _ memC4_noMatch_unopened))

theorem weixin_memC4 (f : Nat) : weixinDLLSearch memC4 none (f + 1) = some SRes.miss := by
  have h1 : weixinLoop memC4 none [87, 101, 105, 120, 105, 110, 46, 100, 108, 108] 0 (f + 1)
      = some SRes.miss :=
    weixinLoop_stop _ _ _ 0 f _ (weixinIter_noMarker _ _ _ 0
      (bytesIndex_eq_none _ _ _ memC4_noMatch_weixin1))
  have h2 : weixinLoop memC4 none
        [120, 119, 101, 99, 104, 97, 116, 95, 102, 105, 108, 101, 115] 0 (f + 1)
      = some SRes.miss :=
    weixinLoop_stop _ _ _ 0 f _ (weixinIter_noMarker _ _ _ 0
      (bytesIndex_eq_none _ _ _ memC4_noMatch_weixin2))
  have h3 : weixinLoop memC4 none [100, 98, 95, 115, 116, 111, 114, 97, 103, 101] 0 (f + 1)
      = some SRes.miss :=
    weixinLoop_stop _ _ _ 0 f _ (weixinIter_noMarker _ _ _ 0
      (bytesIndex_eq_none _ _ _ memC4_noMatch_weixin3))
  unfold weixinDLLSearch weixinDLLPatterns
  rw [weixinPatternList, h1, weixinPatternList, h2, weixinPatternList, h3, weixinPatternList]

theorem hex_memC4 :
    hexEncode (memC4.bytesList 65792 32)
      = "3031323334353637383961626364656630313233343536373839616263646566" := by
  decide

theorem searchKey_eval (m : Mem) (v : Option Validator) (f : Nat) (r1 r2 r3 : SRes)
    (h1 : setDBKeySearch m v f = some r1) (h2 : sqliteSafetySearch m v f = some r2)
    (h3 : weixinDLLSearch m v f = some r3) :
    searchKey m v f = some (combineResults [bpToSRes (basePatternSearch m v), r1, r2, r3]) := by
  unfold searchKey
  rw [h1, h2, h3]

/-- C4: on the scenario chunk of 0x10200 bytes — key bytes
0123456789abcdef0123456789abcdef at 0x10100, little-endian pointer
0x10100 at 0x200, V4 BasePattern signature at 0x208 — the V4 search with
no validator finds the key: `SearchKey` returns the hex encoding of the
32 key bytes, with found = true (`SRes.key`). -/
theorem c4_v4_basePattern_scenario :
    searchKey memC4 none 1
      = some (SRes.key "3031323334353637383961626364656630313233343536373839616263646566") := by
  rw [searchKey_eval memC4 none 1 SRes.miss SRes.miss SRes.miss
    (setdb_memC4 0) (sqlite_memC4 0) (weixin_memC4 0)]
  rw [bp_memC4, hex_memC4]
  rfl

/-- C7: in the V4 BasePattern strategy, every accepted pointer offset —
every `ptrOffset` used to extract the 32-byte candidate
`memory[ptrOffset : ptrOffset+0x20]` — satisfies
`0x10000 < ptrOffset < len(memory) - 0x20`; in particular the candidate
slice stays in bounds (`ptrOffset + 32 < len(memory)`). -/
theorem c7_basePattern_offset_bounds (memory : Mem) (v : Option Validator) :
    ∀ idx o, o ∈ (basePatternLoop memory v idx).accepted →
      65536 < o ∧ o + 32 < memory.size := by
  intro idx
  induction idx using Nat.strong_induction_on with
  | _ idx ih =>
    intro o ho
    rw [basePatternLoop] at ho
    split at ho
    · simp at ho
    · next i heq =>
      have hbound := bytesLastIndex_bound memory idx v4KeyPattern i heq
      have h24 : (24 : Nat) ≤ idx := by
        have : v4KeyPattern.length = 24 := by decide
        omega
      have hlt : i - 24 < idx := by omega
      split at ho
      · simp at ho
      · by_cases hg : (65536 : Int) < toInt64 (le64 memory (i - 8)) ∧
            toInt64 (le64 memory (i - 8)) < (memory.size : Int) - 32
        · rw [if_pos hg] at ho
          dsimp only [] at ho
          have hnat : 65536 < (toInt64 (le64 memory (i - 8))).toNat ∧
              (toInt64 (le64 memory (i - 8))).toNat + 32 < memory.size := by
            have hlow := hg.1
            have hhigh := hg.2
            omega
          cases hbv : bpValidate v (memory.bytesList (toInt64 (le64 memory (i - 8))).toNat 32) with
          | some k =>
            rw [hbv] at ho
            have ho2 : o = (toInt64 (le64 memory (i - 8))).toNat := by simpa using ho
            subst ho2
            exact hnat
          | none =>
            rw [hbv] at ho
            have ho2 : o = (toInt64 (le64 memory (i - 8))).toNat ∨
                o ∈ (basePatternLoop memory v (i - 24)).accepted := by
              simpa using ho
            rcases ho2 with ho2 | ho2
            · subst ho2
              exact hnat
            · exact ih (i - 24) hlt o ho2
        · rw [if_neg hg] at ho
          exact ih (i - 24) hlt o ho

/-- Witness for C7: on the scenario chunk the accepted offset 65792 =
0x10100 indeed satisfies both bounds. -/
theorem c7_witness : 65536 < 65792 ∧ 65792 + 32 < memC4.size :=
  c7_basePattern_offset_bounds memC4 none memC4.size 65792
    (by rw [show basePatternLoop memC4 none memC4.size
          = basePatternSearch memC4 none from rfl, bp_memC4]; simp)

/- ### C3: the V3 worker pointer guard -/

theorem v3Scan_memC3_eval :
    v3ScanChunk memC3 false (fun _ => none) (fun _ => false) 8 = (none, [2147483648]) := by
  have h8 : bytesLastIndex memC3 8 (v3KeyPattern false) = some 4 := by decide
  have h3 : bytesLastIndex memC3 3 (v3KeyPattern false) = none := by decide
  have hrest : v3ScanChunk memC3 false (fun _ => none) (fun _ => false) 3 = (none, []) := by
    rw [v3ScanChunk]
    split
    · rfl
    · next i2 heq2 =>
      rw [h3] at heq2
      exact absurd heq2 (by simp)
  rw [v3ScanChunk]
  split
  · next heq =>
    rw [h8] at heq
    exact absurd heq (by simp)
  · next i heq =>
    rw [h8] at heq
    have hi : i = 4 := by simpa using heq.symm
    subst hi
    rw [if_neg (by decide)]
    have hp : v3PtrRead false memC3 (4 - v3PtrSize false) = 2147483648 := by decide
    simp only [hp]
    rw [if_pos (by decide)]
    have hk : v3ValidateKey (fun _ => none) (fun _ => false) 2147483648 = "" := rfl
    simp only [hk]
    rw [if_neg (by simp)]
    simp only [show (4 : Nat) - 1 = 3 from rfl, hrest]

/-- C3 counterexample: on a 32-bit target (`is64Bit = false`), the
8-byte chunk 00 00 00 80 20 00 00 00 makes the V3 worker dereference the
pointer 0x80000000 = 2147483648, which exceeds the 32-bit platform
maximum user address 0x7FFFFFFF = 2147483647 — so a pointer above the
32-bit platform maximum IS dereferenced, refuting the claim for 32-bit
targets. -/
theorem c3_counterexample :
    (v3ScanChunk memC3 false (fun _ => none) (fun _ => false) memC3.size).2 = [2147483648]
      ∧ 2147483647 < 2147483648 := by
  constructor
  · rw [show memC3.size = 8 from rfl, v3Scan_memC3_eval]
  · decide

/-- C3 amended: the V3 worker dereferences a candidate pointer only if
`0x10000 < ptrValue < 0x7FFFFFFFFFFF`, with the SAME bounds for 32-bit
and 64-bit targets (the code does not use the 32-bit maximum
0x7FFFFFFF). -/
theorem c3_deref_guard (m : Mem) (is64Bit : Bool) (readKey : Nat → Option (List Nat))
    (validate : List Nat → Bool) :
    ∀ idx p, p ∈ (v3ScanChunk m is64Bit readKey validate idx).2 →
      65536 < p ∧ p < 140737488355327 := by
  intro idx
  induction idx using Nat.strong_induction_on with
  | _ idx ih =>
    intro p hp
    rw [v3ScanChunk] at hp
    split at hp
    · simp at hp
    · next i heq =>
      have hbound := bytesLastIndex_bound m idx (v3KeyPattern is64Bit) i heq
      have hlen : 0 < (v3KeyPattern is64Bit).length := by
        cases is64Bit <;> simp [v3KeyPattern]
      have hlt : i - 1 < idx := by omega
      split at hp
      · simp at hp
      · by_cases hg : 65536 < v3PtrRead is64Bit m (i - v3PtrSize is64Bit) ∧
            v3PtrRead is64Bit m (i - v3PtrSize is64Bit) < 140737488355327
        · rw [if_pos hg] at hp
          by_cases hk : v3ValidateKey readKey validate
              (v3PtrRead is64Bit m (i - v3PtrSize is64Bit)) ≠ ""
          · rw [if_pos hk] at hp
            have hp2 : p = v3PtrRead is64Bit m (i - v3PtrSize is64Bit) := by
              simpa using hp
            subst hp2
            exact hg
          · rw [if_neg hk] at hp
            have hp2 : p = v3PtrRead is64Bit m (i - v3PtrSize is64Bit) ∨
                p ∈ (v3ScanChunk m is64Bit readKey validate (i - 1)).2 := by
              simpa using hp
            rcases hp2 with hp2 | hp2
            · subst hp2
              exact hg
            · exact ih (i - 1) hlt p hp2
        · rw [if_neg hg] at hp
          exact ih (i - 1) hlt p hp

/-- Witness for the amended C3: the dereferenced pointer 0x80000000 of
the counterexample chunk satisfies the code's actual guard. -/
theorem c3_witness : 65536 < 2147483648 ∧ 2147483648 < 140737488355327 :=
  c3_deref_guard memC3 false (fun _ => none) (fun _ => false) 8 2147483648
    (by rw [v3Scan_memC3_eval]; simp)

/- ### C5: non-termination of the SetDBKeyLog marker loop -/

theorem setDBKeyIter_memC5_at0 :
    setDBKeyIter memC5 (some rejectAllV) 0 = LoopStep.next 8 := by decide

theorem setDBKeyIter_memC5_at8 :
    setDBKeyIter memC5 (some rejectAllV) 8 = LoopStep.next 8 := by decide

theorem setDBKeyLoop_memC5_stuck :
    ∀ f, setDBKeyLoop memC5 (some rejectAllV) 8 f = none := by
  intro f
  induction f with
  | zero => rfl
  | succ n ih =>
    rw [setDBKeyLoop_next memC5 (some rejectAllV) 8 n 8 setDBKeyIter_memC5_at8]
    exact ih

/-- C5 (refuted): on the 48-byte chunk holding the ASCII marker
SetDBKey twice (at offsets 0 and 8) followed by zeros, with a validator
that rejects every candidate and a never-cancelled context,
`SetDBKeyLogSearch.Search` never terminates: after the first iteration
the Go variable `index` is assigned the window-relative offset returned
by `bytes.Index` plus the marker length, i.e. 8, and the marker at
absolute offset 8 is then rediscovered at relative offset 0 forever.
For every iteration bound `fuel`, the loop is still running (`none`). -/
theorem c5_setDBKeyLog_nonterminating :
    ∀ fuel, setDBKeySearch memC5 (some rejectAllV) fuel = none := by
  intro fuel
  cases fuel with
  | zero => rfl
  | succ f =>
    unfold setDBKeySearch
    rw [setDBKeyLoop_next memC5 (some rejectAllV) 0 f 8 setDBKeyIter_memC5_at0]
    exact setDBKeyLoop_memC5_stuck f

/- ### C6: chunks below S + len(P) bytes -/

theorem setDBKeyIter_memC6 :
    setDBKeyIter memC6 none 0 = LoopStep.stop (some SRes.panicked) := by decide

theorem setdb_memC6 : setDBKeySearch memC6 none 1 = some SRes.panicked := by
  unfold setDBKeySearch
  exact setDBKeyLoop_stop memC6 none 0 0 _ setDBKeyIter_memC6

theorem sqlite_memC6 : sqliteSafetySearch memC6 none 1 = some SRes.miss := by
  unfold sqliteSafetySearch
  exact sqliteSafetyLoop_stop memC6 none 0 0 _
    (sqliteSafetyIter_noMarker memC6 none 0 0 (by decide))

theorem weixin_memC6 : weixinDLLSearch memC6 none 1 = some SRes.miss := by
  have h1 : weixinLoop memC6 none [87, 101, 105, 120, 105, 110, 46, 100, 108, 108] 0 1
      = some SRes.miss :=
    weixinLoop_stop _ _ _ 0 0 _ (weixinIter_noMarker _ _ _ 0 (by decide))
  have h2 : weixinLoop memC6 none
        [120, 119, 101, 99, 104, 97, 116, 95, 102, 105, 108, 101, 115] 0 1
      = some SRes.miss :=
    weixinLoop_stop _ _ _ 0 0 _ (weixinIter_noMarker _ _ _ 0 (by decide))
  have h3 : weixinLoop memC6 none [100, 98, 95, 115, 116, 111, 114, 97, 103, 101] 0 1
      = some SRes.miss :=
    weixinLoop_stop _ _ _ 0 0 _ (weixinIter_noMarker _ _ _ 0 (by decide))
  unfold weixinDLLSearch weixinDLLPatterns
  rw [weixinPatternList, h1, weixinPatternList, h2, weixinPatternList, h3, weixinPatternList]

theorem bp_memC6 : basePatternSearch memC6 none = BPResult.mk "" false [] := by
  unfold basePatternSearch
  rw [basePatternLoop]
  split
  · rfl
  · next i heq =>
    rw [show memC6.size = 31 from rfl] at heq
    rw [show bytesLastIndex memC6 31 v4KeyPattern = none from by decide] at heq
    exact absurd heq (by simp)

/-- In the V4 BasePattern strategy every chunk of fewer than
S + len(P) = 32 bytes indeed yields zero candidates: the backward scan
either finds no pattern or finds it at an offset below the pointer
width, and stops without accepting any offset. -/
theorem basePattern_small_chunk (m : Mem) (v : Option Validator) (h : m.size < 32) :
    basePatternSearch m v = BPResult.mk "" false [] := by
  unfold basePatternSearch
  rw [basePatternLoop]
  split
  · rfl
  · next i heq =>
    have hb := bytesLastIndex_bound m m.size v4KeyPattern i heq
    have hlen : v4KeyPattern.length = 24 := by decide
    rw [if_pos (by omega)]

/-- C6 (the code panics): on the 31-byte chunk SetDBKey plus 23 zero
bytes — fewer than S + len(P) = 32 bytes — `SearchKey` does not return
`("", false)`: the SetDBKeyLog strategy computes the pointer bound
`uint64(len(fullMemory))-32`, which wraps to 2^64-1 for a 31-byte chunk,
accepts the 8-byte window at the marker (value 0x79654B4244746553), and
panics slicing `fullMemory[ptr : ptr+32]` out of range. -/
theorem c6_small_chunk_panics :
    searchKey memC6 none 1 = some SRes.panicked := by
  rw [searchKey_eval memC6 none 1 SRes.panicked SRes.miss SRes.miss
    setdb_memC6 sqlite_memC6 weixin_memC6]
  rw [bp_memC6]
  rfl

/- ### C1: the V4 result merge -/

/-- C1 counterexample: with the received results [(a, ), (b, )] the
coordinator first sets the dataKey slot to a, then replaces it by the
different non-empty value b: the merge is not monotonic and does not
keep the first non-empty value per slot. -/
theorem c1_counterexample :
    v4MergeTrace [("a", ""), ("b", "")] "" "" = [("a", ""), ("b", "")]
      ∧ v4MergeLoop [("a", ""), ("b", "")] "" "" = ("b", "")
      ∧ "a" ≠ "b" := by
  refine ⟨by decide, by decide, by decide⟩

/-- C1 amended: the merge is monotone in non-emptiness only — once a
slot is non-empty it never becomes empty again — but a later non-empty
result value overwrites the slot (latest non-empty value wins, not the
first). -/
theorem c1_merge_nonempty_monotone :
    ∀ (rs : List (String × String)) (d i : String),
      (d ≠ "" → (v4MergeLoop rs d i).1 ≠ "") ∧ (i ≠ "" → (v4MergeLoop rs d i).2 ≠ "") := by
  intro rs
  induction rs with
  | nil => intro d i; exact ⟨fun h => h, fun h => h⟩
  | cons r rs ih =>
    intro d i
    rw [v4MergeLoop]
    by_cases hc : (if r.1 ≠ "" then r.1 else d) ≠ "" ∧ (if r.2 ≠ "" then r.2 else i) ≠ ""
    · rw [if_pos hc]
      exact ⟨fun _ => hc.1, fun _ => hc.2⟩
    · rw [if_neg hc]
      constructor
      · intro hd
        apply (ih _ _).1
        by_cases h1 : r.1 ≠ ""
        · rw [if_pos h1]; exact h1
        · rw [if_neg h1]; exact hd
      · intro hi
        apply (ih _ _).2
        by_cases h2 : r.2 ≠ ""
        · rw [if_pos h2]; exact h2
        · rw [if_neg h2]; exact hi

/-- Witness for the amended C1: slots that are non-empty on entry are
still non-empty after merging another result. -/
theorem c1_witness :
    (v4MergeLoop [("x", "")] "a" "b").1 ≠ "" ∧ (v4MergeLoop [("x", "")] "a" "b").2 ≠ "" :=
  ⟨(c1_merge_nonempty_monotone [("x", "")] "a" "b").1 (by decide),
   (c1_merge_nonempty_monotone [("x", "")] "a" "b").2 (by decide)⟩

/- ### C2: module absent in V3 -/

/-- C2 counterexample: on a live process with WeChatWin.dll absent, V3
`Extract` returns `ErrNoValidKey`, not `ErrWeChatDLLNotFound` (which is
produced inside `findMemory` but only logged by the producer
goroutine). -/
theorem c2_counterexample :
    v3Extract envC2 = ExtractOut.mk "" "" (some ExtractErr.noValidKey) true 8
      ∧ ExtractErr.noValidKey ≠ ExtractErr.weChatDLLNotFound := by
  refine ⟨by decide, by decide⟩

/-- C2 amended: whenever the module is absent on a live process whose
handle and architecture checks succeed, `findMemory` fails with
`ErrWeChatDLLNotFound`, but `Extract` only logs it: no chunk is
produced and `Extract` returns empty keys with `ErrNoValidKey`. -/
theorem c2_module_absent (env : V3Env) (b : Bool)
    (hstat : env.status = ProcStatus.online) (hopen : env.openOk = true)
    (h64 : env.is64Bit = some b) (hmod : env.findModule = none) :
    (v3FindMemory env).2 = some ExtractErr.weChatDLLNotFound
      ∧ v3Extract env = ExtractOut.mk "" "" (some ExtractErr.noValidKey) true
          (v3WorkerCount env.numCPU) := by
  have hfm : v3FindMemory env = ([], some ExtractErr.weChatDLLNotFound) := by
    unfold v3FindMemory
    rw [hmod]
  constructor
  · rw [hfm]
  · unfold v3Extract
    rw [if_neg (by rw [hstat]; decide), if_neg (by rw [hopen]; decide), h64]
    dsimp only
    rw [hfm]
    rfl

/-- Witness for the amended C2 at the concrete environment `envC2`. -/
theorem c2_witness :
    (v3FindMemory envC2).2 = some ExtractErr.weChatDLLNotFound
      ∧ v3Extract envC2 = ExtractOut.mk "" "" (some ExtractErr.noValidKey) true
          (v3WorkerCount envC2.numCPU) :=
  c2_module_absent envC2 true rfl rfl rfl rfl

/- ### C8: offline process -/

/-- C8: for an offline process descriptor both V3 and V4 `Extract`
return `ErrWeChatOffline` immediately, with both keys empty, without
calling `OpenProcess` and without spawning workers. -/
theorem c8_offline_immediate (e3 : V3Env) (e4 : V4Env)
    (h3 : e3.status = ProcStatus.offline) (h4 : e4.status = ProcStatus.offline) :
    v3Extract e3 = ExtractOut.mk "" "" (some ExtractErr.weChatOffline) false 0
      ∧ v4Extract e4 = ExtractOut.mk "" "" (some ExtractErr.weChatOffline) false 0 := by
  constructor
  · unfold v3Extract
    rw [if_pos h3]
  · unfold v4Extract
    rw [if_pos h4]

/-- Witness for C8 at concrete offline environments. -/
theorem c8_witness :
    v3Extract envC8v3 = ExtractOut.mk "" "" (some ExtractErr.weChatOffline) false 0
      ∧ v4Extract envC8v4 = ExtractOut.mk "" "" (some ExtractErr.weChatOffline) false 0 :=
  c8_offline_immediate envC8v3 envC8v4 rfl rfl

/- ### C10: worker count -/

/-- C10: the worker count computed (and spawned) by both `Extract`
implementations equals clamp(NumCPUs, 2, 16) = max 2 (min NumCPUs 16):
NumCPUs itself between 2 and 16, 2 below, 16 above. -/
theorem c10_worker_count (n : Nat) :
    v3WorkerCount n = max 2 (min n 16) ∧ v4WorkerCount n = max 2 (min n 16) := by
  refine ⟨?_, ?_⟩
  · show (if (if n < 2 then 2 else n) > 16 then 16 else if n < 2 then 2 else n)
      = max 2 (min n 16)
    rw [Nat.max_def, Nat.min_def]
    split_ifs <;> omega
  · show (if (if n < 2 then 2 else n) > 16 then 16 else if n < 2 then 2 else n)
      = max 2 (min n 16)
    rw [Nat.max_def, Nat.min_def]
    split_ifs <;> omega

/- ### C9: region size thresholds -/

theorem v3Enum_reads (query : Nat → Option Region) (readOk : Nat → Nat → Bool)
    (readChunk : Nat → Nat → Mem) (endAddr : Nat) :
    ∀ fuel cur ev, ev ∈ (v3FindMemoryLoop query readOk readChunk endAddr cur fuel).2 →
      102400 ≤ ev.region.regionSize ∧ ev.region.state = MEM_COMMIT := by
  intro fuel
  induction fuel with
  | zero =>
    intro cur ev hev
    simp [v3FindMemoryLoop] at hev
  | succ f ih =>
    intro cur ev hev
    rw [v3FindMemoryLoop] at hev
    split at hev
    · split at hev
      · simp at hev
      · next mbi heq =>
        split at hev
        · exact ih _ ev hev
        · next hsize =>
          split at hev
          · next hfilter =>
            rcases List.mem_cons.mp hev with h2 | h2
            · have hr : ev.region = mbi := by rw [h2]
              rw [hr]
              exact ⟨by omega, hfilter.2⟩
            · exact ih _ ev h2
          · exact ih _ ev hev
    · simp at hev

theorem v4Enum_reads (query : Nat → Option Region) (readOk : Nat → Nat → Bool)
    (readChunk : Nat → Nat → Mem) (maxAddr : Nat) :
    ∀ fuel cur ev, ev ∈ (v4FindMemoryLoop query readOk readChunk maxAddr cur fuel).2 →
      1048576 ≤ ev.region.regionSize ∧ ev.region.state = MEM_COMMIT := by
  intro fuel
  induction fuel with
  | zero =>
    intro cur ev hev
    simp [v4FindMemoryLoop] at hev
  | succ f ih =>
    intro cur ev hev
    rw [v4FindMemoryLoop] at hev
    split at hev
    · split at hev
      · simp at hev
      · next memInfo heq =>
        split at hev
        · exact ih _ ev hev
        · next hsize =>
          split at hev
          · next hfilter =>
            rcases List.mem_cons.mp hev with h2 | h2
            · have hr : ev.region = memInfo := by rw [h2]
              rw [hr]
              exact ⟨by omega, hfilter.1⟩
            · exact ih _ ev h2
          · exact ih _ ev hev
    · simp at hev

/-- C9: every `ReadProcessMemory` attempt of the region enumerators is
on a committed region whose size is at or above the threshold — 100 KiB
= 102400 bytes for the V3 module-bounded walk, 1 MiB = 1048576 bytes
for the V4 whole-address-space walk — so regions below the threshold
are skipped without their bytes being read, and only such committed
regions are read and emitted. -/
theorem c9_region_thresholds (query : Nat → Option Region) (readOk : Nat → Nat → Bool)
    (readChunk : Nat → Nat → Mem) (endAddr maxAddr fuel cur3 cur4 : Nat)
    (ev3 ev4 : ReadEvent) :
    (ev3 ∈ (v3FindMemoryLoop query readOk readChunk endAddr cur3 fuel).2 →
      102400 ≤ ev3.region.regionSize ∧ ev3.region.state = MEM_COMMIT)
    ∧ (ev4 ∈ (v4FindMemoryLoop query readOk readChunk maxAddr cur4 fuel).2 →
      1048576 ≤ ev4.region.regionSize ∧ ev4.region.state = MEM_COMMIT) :=
  ⟨fun h => v3Enum_reads query readOk readChunk endAddr fuel cur3 ev3 h,
   fun h => v4Enum_reads query readOk readChunk maxAddr fuel cur4 ev4 h⟩

/-- Witness for C9: a concrete 2 MiB committed private RW region is
read by both walks and satisfies both thresholds. -/
theorem c9_witness :
    (102400 ≤ evC9.region.regionSize ∧ evC9.region.state = MEM_COMMIT)
      ∧ (1048576 ≤ evC9.region.regionSize ∧ evC9.region.state = MEM_COMMIT) :=
  ⟨(c9_region_thresholds queryC9 (fun _ _ => true) (fun _ _ => Mem.mk 0 (fun _ => 0))
      1000000000 1000000000 1 0 0 evC9 evC9).1 (by decide),
   (c9_region_thresholds queryC9 (fun _ _ => true) (fun _ _ => Mem.mk 0 (fun _ => 0))
      1000000000 1000000000 1 0 0 evC9 evC9).2 (by decide)⟩
